import Mathlib

/-!
Shallow embedding of `packages/otto/scripts/parakeet-worker.py`: a line-oriented
transcription worker (protocol loop, model manager, audio normalizer, pipeline).

External effects are modelled explicitly:
* the filesystem is a list of existing paths (`FS`);
* `os.environ` is an association list read at the moment of each access;
* the ffmpeg subprocess, the model constructor and the recognition call are
  oracles passed in as parameters (`PipelineEnv`), each returning `Except`
  where the Python call may raise.
-/

set_option autoImplicit false

namespace Otto

/-- JSON values, restricted to the shapes the worker inspects: every branch
in the source only asks `isinstance(v, str)` or compares against string
literals, so non-string values need only be distinguishable from strings.  A
missing dictionary key is modelled as `jnull`, matching Python `dict.get`
returning `None`. -/
inductive JVal where
  | jnull
  | jbool (b : Bool)
  | jnum (n : Int)
  | jstr (s : String)
  deriving DecidableEq, Repr

/-- A parsed JSON object payload (the worker only ever treats payloads as
dictionaries). -/
abbrev Payload := List (String × JVal)

/-- Model of Python `payload.get(key)`: the value, or `None` when absent. -/
def pget (p : Payload) (key : String) : JVal :=
  match p.lookup key with
  | some v => v
  | none => JVal.jnull

/-- Model of Python `str(...)` as used in f-string interpolation of a JSON
value. -/
def pyStr (v : JVal) : String :=
  match v with
  | JVal.jnull => "None"
  | JVal.jbool true => "True"
  | JVal.jbool false => "False"
  | JVal.jnum n => toString n
  | JVal.jstr s => s

/-- Model of Python `str.strip()`: drop leading and trailing whitespace.
Implemented over the character list so that it reduces in the kernel. -/
def pyStrip (s : String) : String :=
  ⟨((s.data.dropWhile Char.isWhitespace).reverse.dropWhile Char.isWhitespace).reverse⟩

/-- Model of Python `str.lower()` (ASCII, which is all the worker compares). -/
def pyLower (s : String) : String :=
  ⟨s.data.map Char.toLower⟩

/-- Model of Python `s.split("-", 1)[0]`: the prefix before the first dash. -/
def pySplitDashHead (s : String) : String :=
  ⟨s.data.takeWhile (fun c => c ≠ '-')⟩

/-- Model of Python `" ".join(parts)`. -/
def pyJoin (parts : List String) : String :=
  match parts with
  | [] => ""
  | p :: rest => rest.foldl (fun acc q => acc ++ " " ++ q) p

/-- The filesystem: the list of paths that currently exist. -/
abbrev FS := List String

/-- Model of `os.remove` (idempotently composed with the `os.path.exists`
guard the source always places in front of it). -/
def removeFile (fs : FS) (p : String) : FS :=
  fs.filter (fun q => q != p)

/-- Model of `isinstance(v, str) and os.path.isfile(v)`, the readability test
the protocol loop applies to `audioFilePath`. -/
def is_readable_file (fs : FS) (v : JVal) : Bool :=
  match v with
  | JVal.jstr p => fs.contains p
  | _ => false

/-- The process environment, and `os.environ.get(key, default)`. -/
abbrev EnvMap := List (String × String)

def envGet (env : EnvMap) (key dflt : String) : String :=
  match env.lookup key with
  | some v => v
  | none => dflt

/-- Embedding of `normalize_language` (parakeet-worker.py lines 20-28):
non-strings map to `None`; otherwise strip and lower-case, collapse empty and
`"auto"` to `None`, and split off the primary subtag. -/
def normalize_language (value : JVal) : Option String :=
  match value with
  | JVal.jstr s =>
      let normalized := pyLower (pyStrip s)
      if normalized = "" ∨ normalized = "auto" then none
      else some (pySplitDashHead normalized)
  | _ => none

/-- Embedding of `normalize_audio_to_wav` (lines 31-62).  `destination_path`
is the fresh path produced by `tempfile.mkstemp`; `run_ffmpeg` is the outcome
of `subprocess.run`: `Except.error e` when the invocation itself raises (for
example the tool is unavailable) and `Except.ok (returncode, stderr)` when it
returns.  The result is the filesystem afterwards together with either the
normalized path or the propagated failure message.  Note the source has no
try/finally around `subprocess.run`: when the invocation raises, the freshly
created temp file is not removed. -/
def normalize_audio_to_wav (fs : FS) (destination_path : String)
    (run_ffmpeg : Except String (Int × String)) : FS × Except String String :=
  let fs1 := destination_path :: fs
  match run_ffmpeg with
  | Except.error exc => (fs1, Except.error exc)
  | Except.ok (returncode, stderrRaw) =>
      if returncode ≠ 0 then
        let stderr := pyStrip stderrRaw
        (removeFile fs1 destination_path,
          Except.error ("ffmpeg normalization failed (code " ++ toString returncode
            ++ "): " ++ (if stderr = "" then "unknown error" else stderr)))
      else
        (fs1, Except.ok destination_path)

/-- The worker's resident-model state: `self.model_name` and `self.model`
(the handle is abstracted to a number identifying the constructed object). -/
structure WorkerState where
  model_name : Option String
  model : Option Nat
  deriving DecidableEq, Repr

/-- Outcome of one `ensure_model` call: the worker state after the call (the
Python object survives a raised exception with its fields untouched), the
number of model constructions attempted, and the propagated exception, if
any. -/
structure EnsureResult where
  st : WorkerState
  loads : Nat
  err : Option String
  deriving DecidableEq, Repr

/-- The first two lines of `WhisperWorker.ensure_model` (lines 95-96): a
non-string or blank `requested_model` falls back to `os.environ` at the
moment of the call. -/
def resolve_requested (env : EnvMap) (requested_model : JVal) : String :=
  match requested_model with
  | JVal.jstr s => if pyStrip s = "" then envGet env "OTTO_WHISPER_MODEL" "small" else s
  | _ => envGet env "OTTO_WHISPER_MODEL" "small"

/-- Embedding of `WhisperWorker.ensure_model` (lines 94-108).  `env` is
`os.environ` at the moment of the call (the source re-reads it for the
fallback); `load` is the `WhisperModel` constructor, which may raise.
`pyStrip (resolve_requested env requested_model)` is the source's
`resolved`. -/
def ensure_model (env : EnvMap) (load : String → Except String Nat)
    (st : WorkerState) (requested_model : JVal) : EnsureResult :=
  if st.model.isSome ∧ st.model_name = some (pyStrip (resolve_requested env requested_model)) then
    ⟨st, 0, none⟩
  else
    match load (pyStrip (resolve_requested env requested_model)) with
    | Except.ok m =>
        ⟨⟨some (pyStrip (resolve_requested env requested_model)), some m⟩, 1, none⟩
    | Except.error e => ⟨st, 1, some e⟩

/-- The external effects one pipeline invocation can touch: the environment,
the model constructor, the fresh temp path `mkstemp` hands out, the ffmpeg
outcome, and the recognition call (segment texts plus `info.language`). -/
structure PipelineEnv where
  env : EnvMap
  load : String → Except String Nat
  tempPath : String
  ffmpeg : Except String (Int × String)
  recognize : String → Option String → Except String (List String × Option String)

deriving instance DecidableEq for Except

/-- Outcome of one `WhisperWorker.transcribe_file` call. -/
structure TranscribeResult where
  st : WorkerState
  fs : FS
  loads : Nat
  out : Except String (String × Option String)
  deriving DecidableEq, Repr

/-- Embedding of `WhisperWorker.transcribe_file` (lines 110-141): ensure the
model, normalize the language tag, normalize the audio to a temp wav, run
recognition, join the non-empty stripped segments, fail on empty text, and
remove the temp file in a `finally` block around the recognition step. -/
def transcribe_file (pe : PipelineEnv) (st : WorkerState) (fs : FS)
    (audio_file_path : String) (language model_name : JVal) : TranscribeResult :=
  let _ := audio_file_path
  let er := ensure_model pe.env pe.load st model_name
  match er.err with
  | some e => ⟨er.st, fs, er.loads, Except.error e⟩
  | none =>
    match er.st.model with
    | none => ⟨er.st, fs, er.loads, Except.error "faster-whisper model is not initialized"⟩
    | some _ =>
      let normalized_language := normalize_language language
      let nr := normalize_audio_to_wav fs pe.tempPath pe.ffmpeg
      match nr.2 with
      | Except.error e => ⟨er.st, nr.1, er.loads, Except.error e⟩
      | Except.ok normalized_path =>
        match pe.recognize normalized_path normalized_language with
        | Except.error e =>
            ⟨er.st, removeFile nr.1 normalized_path, er.loads, Except.error e⟩
        | Except.ok (segments, language_value) =>
            let text_parts := (segments.map pyStrip).filter (fun p => p != "")
            let text := pyStrip (pyJoin text_parts)
            if text = "" then
              ⟨er.st, removeFile nr.1 normalized_path, er.loads,
                Except.error "faster-whisper returned empty transcription"⟩
            else
              let language_text : Option String :=
                match language_value with
                | some s => if s = "" then none else some (pyStrip s)
                | none => none
              let final : Option String :=
                match language_text with
                | some s => if s = "" then none else some s
                | none => none
              ⟨er.st, removeFile nr.1 normalized_path, er.loads, Except.ok (text, final)⟩

/-- Embedding of `WhisperWorker.__init__`'s model setup (lines 91-92): read
the default model from the environment and ensure it. -/
def worker_init (env : EnvMap) (load : String → Except String Nat) : EnsureResult :=
  ensure_model env load ⟨none, none⟩ (JVal.jstr (envGet env "OTTO_WHISPER_MODEL" "small"))

/-- A response line emitted on stdout by the protocol loop. -/
inductive Response where
  | resultOk (id : String) (text : String) (language : Option String)
  | resultErr (id : String) (error : String)
  deriving DecidableEq, Repr

/-- Effect of processing one input line in `main`'s loop (lines 148-207). -/
structure LoopStep where
  st : WorkerState
  fs : FS
  loads : Nat
  responses : List Response
  logs : List String
  stop : Bool
  deriving Repr

/-- Embedding of one iteration of `main`'s `for raw_line in sys.stdin` loop:
strip the line, skip blanks, parse JSON (the parser oracle returns `none`
when `json.loads` raises), dispatch on `event`, validate `id` and
`audioFilePath`, and run the pipeline with every failure converted to an
`ok:false` response. -/
def handle_line (pe : PipelineEnv) (parse : String → Option Payload)
    (st : WorkerState) (fs : FS) (raw_line : String) : LoopStep :=
  let line := pyStrip raw_line
  if line = "" then ⟨st, fs, 0, [], [], false⟩
  else
    match parse line with
    | none => ⟨st, fs, 0, [], ["Ignoring invalid JSON payload"], false⟩
    | some payload =>
      let event := pget payload "event"
      if event = JVal.jstr "shutdown" then ⟨st, fs, 0, [], [], true⟩
      else if event ≠ JVal.jstr "transcribe" then
        ⟨st, fs, 0, [], ["Ignoring unsupported event: " ++ pyStr event], false⟩
      else
        match pget payload "id" with
        | JVal.jstr request_id =>
          if request_id = "" then
            ⟨st, fs, 0, [], ["Ignoring transcription request without valid id"], false⟩
          else
            let afp := pget payload "audioFilePath"
            if is_readable_file fs afp then
              match afp with
              | JVal.jstr p =>
                let tr := transcribe_file pe st fs p (pget payload "language")
                    (pget payload "model")
                match tr.out with
                | Except.ok (text, language) =>
                    ⟨tr.st, tr.fs, tr.loads, [Response.resultOk request_id text language],
                      [], false⟩
                | Except.error e =>
                    ⟨tr.st, tr.fs, tr.loads, [Response.resultErr request_id e], [], false⟩
              | _ => ⟨st, fs, 0, [], [], false⟩
            else
              ⟨st, fs, 0,
                [Response.resultErr request_id ("Input file not found: " ++ pyStr afp)],
                [], false⟩
        | v =>
          let _ := v
          ⟨st, fs, 0, [], ["Ignoring transcription request without valid id"], false⟩

/-- Accumulated effect of running the loop over a list of input lines. -/
structure RunResult where
  st : WorkerState
  fs : FS
  responses : List Response
  logs : List String
  cleanShutdown : Bool
  deriving Repr

/-- Embedding of `main`'s read loop over a stream of input lines, each paired
with the external effects available at that moment. -/
def run_lines (parse : String → Option Payload) (st : WorkerState) (fs : FS) :
    List (String × PipelineEnv) → RunResult
  | [] => ⟨st, fs, [], [], false⟩
  | (raw, pe) :: rest =>
    let step := handle_line pe parse st fs raw
    if step.stop then ⟨step.st, step.fs, step.responses, step.logs, true⟩
    else
      let r := run_lines parse step.st step.fs rest
      ⟨r.st, r.fs, step.responses ++ r.responses, step.logs ++ r.logs, r.cleanShutdown⟩

end Otto

namespace Otto

/-- Claim C6: language-tag normalization maps a missing value, a non-string
value, an empty or whitespace-only string, and the literal "auto" in any
letter case to "detect automatically" (`none`, i.e. Python `None` passed to
the engine); every other tag is lower-cased and truncated to its primary
subtag — e.g. "en-US" becomes "en" — before being passed to the engine. -/
theorem c6_normalize_language_spec :
    normalize_language JVal.jnull = none
    ∧ (∀ b, normalize_language (JVal.jbool b) = none)
    ∧ (∀ n, normalize_language (JVal.jnum n) = none)
    ∧ (∀ s, pyStrip s = "" → normalize_language (JVal.jstr s) = none)
    ∧ (∀ s, pyLower (pyStrip s) = "auto" → normalize_language (JVal.jstr s) = none)
    ∧ (∀ s, pyLower (pyStrip s) ≠ "" → pyLower (pyStrip s) ≠ "auto" →
        normalize_language (JVal.jstr s) = some (pySplitDashHead (pyLower (pyStrip s))))
    ∧ normalize_language (JVal.jstr "en-US") = some "en" := by
  refine ⟨rfl, fun b => rfl, fun n => rfl, ?_, ?_, ?_, by decide⟩
  · intro s h
    simp [normalize_language, h, pyLower]
  · intro s h
    simp [normalize_language, h]
  · intro s h1 h2
    simp [normalize_language, h1, h2]

/-- Witness for C6 at concrete inputs: whitespace-only, cased "auto", and a
region-qualified tag. -/
theorem c6_normalize_language_spec_witness :
    normalize_language (JVal.jstr "  ") = none
    ∧ normalize_language (JVal.jstr " AUTO ") = none
    ∧ normalize_language (JVal.jstr "pt-BR") = some "pt" :=
  ⟨c6_normalize_language_spec.2.2.2.1 "  " (by decide),
   c6_normalize_language_spec.2.2.2.2.1 " AUTO " (by decide),
   c6_normalize_language_spec.2.2.2.2.2.1 "pt-BR" (by decide) (by decide)⟩

/-- Claim C2: model replacement is atomic-on-success — when `ensure_model` is
called with a name different from the resident handle's name and the load of
the new model fails, the worker state is unchanged: the previously resident
model object and its name remain resident, and the failure propagates. -/
theorem c2_ensure_model_atomic (env : EnvMap) (load : String → Except String Nat)
    (st : WorkerState) (s : String) (oldm : Nat) (e : String)
    (_hm : st.model = some oldm)
    (hdiff : st.model_name ≠ some (pyStrip s))
    (hs : pyStrip s ≠ "")
    (hl : load (pyStrip s) = Except.error e) :
    ensure_model env load st (JVal.jstr s) = ⟨st, 1, some e⟩ := by
  simp [ensure_model, resolve_requested, hs, hdiff, hl]

/-- Witness for C2: a resident "small" model survives a failing load of
"large". -/
theorem c2_ensure_model_atomic_witness :
    ensure_model [] (fun n => if n = "large" then Except.error "boom" else Except.ok 3)
      ⟨some "small", some 3⟩ (JVal.jstr "large")
      = ⟨⟨some "small", some 3⟩, 1, some "boom"⟩ :=
  c2_ensure_model_atomic [] (fun n => if n = "large" then Except.error "boom" else Except.ok 3)
    ⟨some "small", some 3⟩ "large" 3 "boom" rfl (by decide) (by decide) (by decide)

/-- Claim C3: `ensure_model` is idempotent with respect to loads — from a
state not already holding the requested model, a successful call performs one
construction, a second call with the same name performs zero constructions
and leaves the state untouched, and a call with a different name performs
exactly one additional construction. -/
theorem c3_ensure_model_idempotent (env : EnvMap) (load : String → Except String Nat)
    (st : WorkerState) (s : String) (m1 : Nat)
    (hs : pyStrip s ≠ "")
    (hfresh : ¬(st.model.isSome ∧ st.model_name = some (pyStrip s)))
    (hload : load (pyStrip s) = Except.ok m1) :
    (ensure_model env load st (JVal.jstr s)).loads = 1
    ∧ (ensure_model env load (ensure_model env load st (JVal.jstr s)).st (JVal.jstr s)).loads = 0
    ∧ (ensure_model env load (ensure_model env load st (JVal.jstr s)).st (JVal.jstr s)).st
        = (ensure_model env load st (JVal.jstr s)).st
    ∧ (∀ u, pyStrip u ≠ "" → pyStrip u ≠ pyStrip s →
        (ensure_model env load (ensure_model env load st (JVal.jstr s)).st (JVal.jstr u)).loads
          = 1) := by
  have h1 : ensure_model env load st (JVal.jstr s) = ⟨⟨some (pyStrip s), some m1⟩, 1, none⟩ := by
    simp [ensure_model, resolve_requested, hs, hfresh, hload]
  refine ⟨by rw [h1], ?_, ?_, ?_⟩
  · rw [h1]
    simp [ensure_model, resolve_requested, hs]
  · rw [h1]
    simp [ensure_model, resolve_requested, hs]
  · intro u hu hne
    have hne' : pyStrip s ≠ pyStrip u := fun h => hne h.symm
    rw [h1]
    cases hlu : load (pyStrip u) with
    | ok m2 => simp [ensure_model, resolve_requested, hu, hne', hlu]
    | error e2 => simp [ensure_model, resolve_requested, hu, hne', hlu]

/-- Witness for C3: loading "small" twice constructs once; a following
request for "large" constructs once more. -/
theorem c3_ensure_model_idempotent_witness :
    (ensure_model [] (fun _ => Except.ok 5) ⟨none, none⟩ (JVal.jstr "small")).loads = 1
    ∧ (ensure_model [] (fun _ => Except.ok 5)
        (ensure_model [] (fun _ => Except.ok 5) ⟨none, none⟩ (JVal.jstr "small")).st
        (JVal.jstr "small")).loads = 0
    ∧ (ensure_model [] (fun _ => Except.ok 5)
        (ensure_model [] (fun _ => Except.ok 5) ⟨none, none⟩ (JVal.jstr "small")).st
        (JVal.jstr "small")).st
        = (ensure_model [] (fun _ => Except.ok 5) ⟨none, none⟩ (JVal.jstr "small")).st
    ∧ (ensure_model [] (fun _ => Except.ok 5)
        (ensure_model [] (fun _ => Except.ok 5)
          (ensure_model [] (fun _ => Except.ok 5) ⟨none, none⟩ (JVal.jstr "small")).st
          (JVal.jstr "small")).st
        (JVal.jstr "large")).loads = 1 := by
  have h := c3_ensure_model_idempotent [] (fun _ => Except.ok 5) ⟨none, none⟩ "small" 5
    (by decide) (by decide) (by decide)
  refine ⟨h.1, h.2.1, h.2.2.1, ?_⟩
  rw [h.2.2.1]
  exact h.2.2.2 "large" (by decide) (by decide)

/-- Claim C4 (evaluating the code at the failing input): when the ffmpeg
subprocess invocation itself raises — the tool is unavailable — the freshly
created temporary file is left on the filesystem while the error propagates,
because the source has no try/finally between `mkstemp` and
`subprocess.run`; by contrast, a non-zero exit code does remove the file. -/
theorem c4_temp_file_leak_on_raise :
    (normalize_audio_to_wav [] "otto-fw-tmp.wav"
        (Except.error "No such file or directory: ffmpeg"))
      = (["otto-fw-tmp.wav"], Except.error "No such file or directory: ffmpeg")
    ∧ normalize_audio_to_wav [] "otto-fw-tmp.wav" (Except.ok (1, "boom"))
      = ([], Except.error "ffmpeg normalization failed (code 1): boom") := by
  decide

end Otto

namespace Otto

/-- An absent, non-string, or blank model field resolves to the environment
default at call time. -/
lemma resolve_requested_fallback (env : EnvMap) (req : JVal)
    (hreq : ∀ s, req = JVal.jstr s → pyStrip s = "") :
    resolve_requested env req = envGet env "OTTO_WHISPER_MODEL" "small" := by
  cases req with
  | jstr s => simp [resolve_requested, hreq s rfl]
  | jnull => rfl
  | jbool b => rfl
  | jnum n => rfl

/-- Requesting exactly the environment default resolves to it (whether or not
it is blank, since a blank value re-reads the same environment). -/
lemma resolve_requested_of_default (env : EnvMap) :
    resolve_requested env (JVal.jstr (envGet env "OTTO_WHISPER_MODEL" "small"))
      = envGet env "OTTO_WHISPER_MODEL" "small" := by
  by_cases hb : pyStrip (envGet env "OTTO_WHISPER_MODEL" "small") = "" <;>
    simp [resolve_requested, hb]

/-- Whenever `ensure_model` does not raise, the resident name afterwards is
the stripped resolved request. -/
lemma ensure_model_ok_name (env : EnvMap) (load : String → Except String Nat)
    (st : WorkerState) (req : JVal)
    (hok : (ensure_model env load st req).err = none) :
    (ensure_model env load st req).st.model_name
      = some (pyStrip (resolve_requested env req)) := by
  unfold ensure_model at hok ⊢
  by_cases hg : st.model.isSome = true ∧ st.model_name = some (pyStrip (resolve_requested env req))
  · rw [if_pos hg]
    exact hg.2
  · rw [if_neg hg] at hok ⊢
    cases hl : load (pyStrip (resolve_requested env req)) with
    | ok m => rfl
    | error e =>
      rw [hl] at hok
      exact absurd hok (by simp)

/-- Claim C10, counterexample: the fallback default is NOT captured once at
process start.  With `OTTO_WHISPER_MODEL=small` at startup the worker loads
"small"; after the environment changes to `large`, a request with an absent
model field makes `ensure_model` re-read the environment and load "large",
not the startup value "small". -/
theorem c10_counterexample :
    (worker_init [("OTTO_WHISPER_MODEL", "small")] (fun _ => Except.ok 1)).st.model_name
      = some "small"
    ∧ (ensure_model [("OTTO_WHISPER_MODEL", "large")] (fun _ => Except.ok 1)
        (worker_init [("OTTO_WHISPER_MODEL", "small")] (fun _ => Except.ok 1)).st
        JVal.jnull).st.model_name = some "large"
    ∧ (ensure_model [("OTTO_WHISPER_MODEL", "large")] (fun _ => Except.ok 1)
        (worker_init [("OTTO_WHISPER_MODEL", "small")] (fun _ => Except.ok 1)).st
        JVal.jnull).loads = 1
    ∧ ("large" : String) ≠ "small" := by
  decide

/-- Claim C10 as amended: the initial load at process start reads the
configured default once; every later fallback for an absent or blank model
name re-reads the configuration at call time, so it resolves to the
configured default as of that call — in particular, whenever the
configuration is unchanged since startup, the fallback resolves to the same
value the startup read produced. -/
theorem c10_amended_fallback (env : EnvMap) (load : String → Except String Nat)
    (st : WorkerState) (req : JVal)
    (hreq : ∀ s, req = JVal.jstr s → pyStrip s = "") :
    ((ensure_model env load st req).err = none →
      (ensure_model env load st req).st.model_name
        = some (pyStrip (envGet env "OTTO_WHISPER_MODEL" "small")))
    ∧ ((worker_init env load).err = none →
      (worker_init env load).st.model_name
        = some (pyStrip (envGet env "OTTO_WHISPER_MODEL" "small"))) := by
  constructor
  · intro hok
    rw [ensure_model_ok_name env load st req hok, resolve_requested_fallback env req hreq]
  · intro hok
    unfold worker_init at hok ⊢
    rw [ensure_model_ok_name _ _ _ _ hok, resolve_requested_of_default env]

/-- Witness for C10's amended claim: an unchanged configuration makes the
fallback resolve to the startup default. -/
theorem c10_amended_fallback_witness :
    ((ensure_model [("OTTO_WHISPER_MODEL", "base")] (fun _ => Except.ok 2)
        ⟨some "other", some 9⟩ JVal.jnull).err = none →
      (ensure_model [("OTTO_WHISPER_MODEL", "base")] (fun _ => Except.ok 2)
        ⟨some "other", some 9⟩ JVal.jnull).st.model_name
        = some (pyStrip (envGet [("OTTO_WHISPER_MODEL", "base")] "OTTO_WHISPER_MODEL" "small")))
    ∧ ((worker_init [("OTTO_WHISPER_MODEL", "base")] (fun _ => Except.ok 2)).err = none →
      (worker_init [("OTTO_WHISPER_MODEL", "base")] (fun _ => Except.ok 2)).st.model_name
        = some (pyStrip (envGet [("OTTO_WHISPER_MODEL", "base")] "OTTO_WHISPER_MODEL" "small"))) :=
  c10_amended_fallback [("OTTO_WHISPER_MODEL", "base")] (fun _ => Except.ok 2)
    ⟨some "other", some 9⟩ JVal.jnull (fun s h => by cases h)

/-- Claim C9, counterexample: the detected language is NOT lower-cased by the
worker.  With an engine reporting language "EN", the successful result
carries "EN" verbatim, which differs from its lower-casing. -/
theorem c9_counterexample :
    (transcribe_file
        ⟨[], fun _ => Except.ok 1, "t.wav", Except.ok (0, ""),
          fun _ _ => Except.ok (["Hi"], some "EN")⟩
        ⟨none, none⟩ [] "a.wav" JVal.jnull JVal.jnull).out
      = Except.ok ("Hi", some "EN")
    ∧ pyLower "EN" ≠ "EN" := by
  decide

/-- Claim C9 as amended: for every successful transcription the detected
language placed in the result is either `none` (engine reported nothing, an
empty string, or a whitespace-only string) or the engine's reported string
trimmed of surrounding whitespace — it is not lower-cased by the worker. -/
theorem c9_amended_language (pe : PipelineEnv) (st : WorkerState) (fs : FS)
    (p : String) (lang mn : JVal) (m : Nat) (serr : String)
    (segments : List String) (lv : Option String)
    (h1 : (ensure_model pe.env pe.load st mn).err = none)
    (h2 : (ensure_model pe.env pe.load st mn).st.model = some m)
    (h3 : pe.ffmpeg = Except.ok (0, serr))
    (h4 : pe.recognize pe.tempPath (normalize_language lang) = Except.ok (segments, lv)) :
    (transcribe_file pe st fs p lang mn).out
      = Except.error "faster-whisper returned empty transcription"
    ∨ ∃ text, (transcribe_file pe st fs p lang mn).out
      = Except.ok (text,
          match lv with
          | some s => if s = "" then none else if pyStrip s = "" then none else some (pyStrip s)
          | none => none) := by
  have hnorm : normalize_audio_to_wav fs pe.tempPath pe.ffmpeg
      = (pe.tempPath :: fs, Except.ok pe.tempPath) := by
    rw [h3]
    simp [normalize_audio_to_wav]
  simp only [transcribe_file, h1, h2, hnorm, h4]
  by_cases ht : pyStrip (pyJoin ((segments.map pyStrip).filter (fun q => q != ""))) = ""
  · left
    simp [ht]
  · right
    refine ⟨pyStrip (pyJoin ((segments.map pyStrip).filter (fun q => q != ""))), ?_⟩
    cases lv with
    | none => simp [ht]
    | some s =>
      by_cases hs0 : s = ""
      · simp [ht, hs0]
      · by_cases hst : pyStrip s = ""
        · simp [ht, hs0, hst]
        · simp [ht, hs0, hst]

/-- Witness for C9's amended claim at a concrete run whose engine reports a
padded language tag. -/
theorem c9_amended_language_witness :
    (transcribe_file
        ⟨[], fun _ => Except.ok 1, "t.wav", Except.ok (0, ""),
          fun _ _ => Except.ok (["Hi"], some " de ")⟩
        ⟨none, none⟩ [] "a.wav" JVal.jnull JVal.jnull).out
      = Except.error "faster-whisper returned empty transcription"
    ∨ ∃ text, (transcribe_file
        ⟨[], fun _ => Except.ok 1, "t.wav", Except.ok (0, ""),
          fun _ _ => Except.ok (["Hi"], some " de ")⟩
        ⟨none, none⟩ [] "a.wav" JVal.jnull JVal.jnull).out
      = Except.ok (text,
          match (some " de " : Option String) with
          | some s => if s = "" then none else if pyStrip s = "" then none else some (pyStrip s)
          | none => none) :=
  c9_amended_language
    ⟨[], fun _ => Except.ok 1, "t.wav", Except.ok (0, ""),
      fun _ _ => Except.ok (["Hi"], some " de ")⟩
    ⟨none, none⟩ [] "a.wav" JVal.jnull JVal.jnull 1 "" ["Hi"] (some " de ")
    (by decide) (by decide) rfl rfl

end Otto

namespace Otto

/-- Claim C7: an input line that is not valid JSON is logged to the error
channel, produces no response, leaves the worker state and filesystem
untouched, and the loop continues with the subsequent lines. -/
theorem c7_invalid_json_skipped (pe : PipelineEnv) (parse : String → Option Payload)
    (st : WorkerState) (fs : FS) (raw : String)
    (rest : List (String × PipelineEnv)) (r : RunResult)
    (hne : pyStrip raw ≠ "")
    (hparse : parse (pyStrip raw) = none)
    (hr : run_lines parse st fs rest = r) :
    handle_line pe parse st fs raw
      = ⟨st, fs, 0, [], ["Ignoring invalid JSON payload"], false⟩
    ∧ run_lines parse st fs ((raw, pe) :: rest)
      = ⟨r.st, r.fs, r.responses, "Ignoring invalid JSON payload" :: r.logs,
          r.cleanShutdown⟩ := by
  have h1 : handle_line pe parse st fs raw
      = ⟨st, fs, 0, [], ["Ignoring invalid JSON payload"], false⟩ := by
    simp [handle_line, hne, hparse]
  refine ⟨h1, ?_⟩
  simp [run_lines, h1, hr]

/-- Witness for C7: one unparsable line followed by a shutdown line. -/
theorem c7_invalid_json_skipped_witness :
    handle_line ⟨[], fun _ => Except.ok 1, "t.wav", Except.ok (0, ""),
        fun _ _ => Except.ok ([], none)⟩
      (fun l => if l = "stop" then some [("event", JVal.jstr "shutdown")] else none)
      ⟨none, none⟩ [] "not json"
      = ⟨⟨none, none⟩, [], 0, [], ["Ignoring invalid JSON payload"], false⟩
    ∧ run_lines (fun l => if l = "stop" then some [("event", JVal.jstr "shutdown")] else none)
        ⟨none, none⟩ []
        [("not json", ⟨[], fun _ => Except.ok 1, "t.wav", Except.ok (0, ""),
          fun _ _ => Except.ok ([], none)⟩)]
      = ⟨⟨none, none⟩, [], [], "Ignoring invalid JSON payload" :: [], false⟩ :=
  c7_invalid_json_skipped
    ⟨[], fun _ => Except.ok 1, "t.wav", Except.ok (0, ""), fun _ _ => Except.ok ([], none)⟩
    (fun l => if l = "stop" then some [("event", JVal.jstr "shutdown")] else none)
    ⟨none, none⟩ [] "not json" [] ⟨⟨none, none⟩, [], [], [], false⟩
    (by decide) (by decide) rfl

/-- Claim C8: a transcribe request with a valid non-empty id whose
`audioFilePath` is missing, not a string, or not an existing file gets an
immediate `ok:false` response "Input file not found: ..." with the worker
state and filesystem untouched and no model construction — the pipeline is
never entered — and the loop continues. -/
theorem c8_input_not_found (pe : PipelineEnv) (parse : String → Option Payload)
    (st : WorkerState) (fs : FS) (raw : String) (payload : Payload) (rid : String)
    (rest : List (String × PipelineEnv)) (r : RunResult)
    (hne : pyStrip raw ≠ "")
    (hparse : parse (pyStrip raw) = some payload)
    (hev : pget payload "event" = JVal.jstr "transcribe")
    (hid : pget payload "id" = JVal.jstr rid)
    (hrid : rid ≠ "")
    (hunread : is_readable_file fs (pget payload "audioFilePath") = false)
    (hr : run_lines parse st fs rest = r) :
    handle_line pe parse st fs raw
      = ⟨st, fs, 0,
          [Response.resultErr rid
            ("Input file not found: " ++ pyStr (pget payload "audioFilePath"))], [], false⟩
    ∧ run_lines parse st fs ((raw, pe) :: rest)
      = ⟨r.st, r.fs,
          Response.resultErr rid
            ("Input file not found: " ++ pyStr (pget payload "audioFilePath"))
            :: r.responses,
          r.logs, r.cleanShutdown⟩ := by
  have h1 : handle_line pe parse st fs raw
      = ⟨st, fs, 0,
          [Response.resultErr rid
            ("Input file not found: " ++ pyStr (pget payload "audioFilePath"))], [], false⟩ := by
    simp [handle_line, hne, hparse, hev, hid, hrid, hunread]
  refine ⟨h1, ?_⟩
  simp [run_lines, h1, hr]

/-- Witness for C8: a request naming a non-existent path gets the immediate
error response and the loop moves on. -/
theorem c8_input_not_found_witness :
    handle_line ⟨[], fun _ => Except.ok 1, "t.wav", Except.ok (0, ""),
        fun _ _ => Except.ok ([], none)⟩
      (fun l => if l = "req" then some [("event", JVal.jstr "transcribe"),
        ("id", JVal.jstr "r1"), ("audioFilePath", JVal.jstr "/tmp/missing.wav")] else none)
      ⟨none, none⟩ [] "req"
      = ⟨⟨none, none⟩, [], 0,
          [Response.resultErr "r1" "Input file not found: /tmp/missing.wav"], [], false⟩
    ∧ run_lines
        (fun l => if l = "req" then some [("event", JVal.jstr "transcribe"),
          ("id", JVal.jstr "r1"), ("audioFilePath", JVal.jstr "/tmp/missing.wav")] else none)
        ⟨none, none⟩ []
        [("req", ⟨[], fun _ => Except.ok 1, "t.wav", Except.ok (0, ""),
          fun _ _ => Except.ok ([], none)⟩)]
      = ⟨⟨none, none⟩, [],
          Response.resultErr "r1" "Input file not found: /tmp/missing.wav" :: [], [], false⟩ := by
  have h := c8_input_not_found
    ⟨[], fun _ => Except.ok 1, "t.wav", Except.ok (0, ""), fun _ _ => Except.ok ([], none)⟩
    (fun l => if l = "req" then some [("event", JVal.jstr "transcribe"),
      ("id", JVal.jstr "r1"), ("audioFilePath", JVal.jstr "/tmp/missing.wav")] else none)
    ⟨none, none⟩ [] "req"
    [("event", JVal.jstr "transcribe"), ("id", JVal.jstr "r1"),
      ("audioFilePath", JVal.jstr "/tmp/missing.wav")]
    "r1" [] ⟨⟨none, none⟩, [], [], [], false⟩
    (by decide) (by decide) (by decide) (by decide) (by decide) (by decide) rfl
  exact h

/-- Claim C1: for a transcribe request with a valid non-empty id and a
readable audio path, any failure raised by the transcription pipeline is
caught at the protocol-loop boundary and converted into exactly one
`ok:false` response carrying the failure message, and the loop goes on to
process the subsequent lines instead of terminating. -/
theorem c1_pipeline_failure_isolated (pe : PipelineEnv) (parse : String → Option Payload)
    (st : WorkerState) (fs : FS) (raw : String) (payload : Payload)
    (rid p msg : String) (rest : List (String × PipelineEnv))
    (tr : TranscribeResult) (r : RunResult)
    (hne : pyStrip raw ≠ "")
    (hparse : parse (pyStrip raw) = some payload)
    (hev : pget payload "event" = JVal.jstr "transcribe")
    (hid : pget payload "id" = JVal.jstr rid)
    (hrid : rid ≠ "")
    (hafp : pget payload "audioFilePath" = JVal.jstr p)
    (hfile : fs.contains p = true)
    (htr : transcribe_file pe st fs p (pget payload "language") (pget payload "model") = tr)
    (herr : tr.out = Except.error msg)
    (hr : run_lines parse tr.st tr.fs rest = r) :
    handle_line pe parse st fs raw
      = ⟨tr.st, tr.fs, tr.loads, [Response.resultErr rid msg], [], false⟩
    ∧ run_lines parse st fs ((raw, pe) :: rest)
      = ⟨r.st, r.fs, Response.resultErr rid msg :: r.responses, r.logs,
          r.cleanShutdown⟩ := by
  have hmem : p ∈ fs := by simpa using hfile
  have h1 : handle_line pe parse st fs raw
      = ⟨tr.st, tr.fs, tr.loads, [Response.resultErr rid msg], [], false⟩ := by
    simp [handle_line, hne, hparse, hev, hid, hrid, hafp, is_readable_file, hmem, htr, herr]
  refine ⟨h1, ?_⟩
  simp [run_lines, h1, hr]

end Otto

namespace Otto

/-- Witness for C1: a readable file whose ffmpeg conversion exits non-zero
produces exactly one error response and the loop keeps going (empty rest). -/
theorem c1_pipeline_failure_isolated_witness :
    handle_line ⟨[], fun _ => Except.ok 1, "t.wav", Except.ok (1, "boom"),
        fun _ _ => Except.ok ([], none)⟩
      (fun l => if l = "req" then some [("event", JVal.jstr "transcribe"),
        ("id", JVal.jstr "r1"), ("audioFilePath", JVal.jstr "a.wav")] else none)
      ⟨none, none⟩ ["a.wav"] "req"
      = ⟨⟨some "small", some 1⟩, ["a.wav"], 1,
          [Response.resultErr "r1" "ffmpeg normalization failed (code 1): boom"], [], false⟩
    ∧ run_lines
        (fun l => if l = "req" then some [("event", JVal.jstr "transcribe"),
          ("id", JVal.jstr "r1"), ("audioFilePath", JVal.jstr "a.wav")] else none)
        ⟨none, none⟩ ["a.wav"]
        [("req", ⟨[], fun _ => Except.ok 1, "t.wav", Except.ok (1, "boom"),
          fun _ _ => Except.ok ([], none)⟩)]
      = ⟨⟨some "small", some 1⟩, ["a.wav"],
          Response.resultErr "r1" "ffmpeg normalization failed (code 1): boom" :: [],
          [], false⟩ :=
  c1_pipeline_failure_isolated
    ⟨[], fun _ => Except.ok 1, "t.wav", Except.ok (1, "boom"), fun _ _ => Except.ok ([], none)⟩
    (fun l => if l = "req" then some [("event", JVal.jstr "transcribe"),
      ("id", JVal.jstr "r1"), ("audioFilePath", JVal.jstr "a.wav")] else none)
    ⟨none, none⟩ ["a.wav"] "req"
    [("event", JVal.jstr "transcribe"), ("id", JVal.jstr "r1"),
      ("audioFilePath", JVal.jstr "a.wav")]
    "r1" "a.wav" "ffmpeg normalization failed (code 1): boom" []
    ⟨⟨some "small", some 1⟩, ["a.wav"], 1,
      Except.error "ffmpeg normalization failed (code 1): boom"⟩
    ⟨⟨some "small", some 1⟩, ["a.wav"], [], [], false⟩
    (by decide) (by decide) (by decide) (by decide) (by decide) (by decide) (by decide)
    (by decide) (by decide) rfl

/-- Stripping every segment to the empty string makes the worker's non-empty
filter drop all of them. -/
lemma blank_segments_filter (segments : List String)
    (h : ∀ s ∈ segments, pyStrip s = "") :
    (segments.map pyStrip).filter (fun q => q != "") = [] := by
  induction segments with
  | nil => rfl
  | cons a as ih =>
    simp only [List.map_cons, List.filter_cons]
    rw [h a (by simp)]
    simp only [bne_self_eq_false, if_false, Bool.false_eq_true]
    exact ih (fun s hs => h s (by simp [hs]))

/-- The pipeline never reports success with empty text: the empty-text guard
precedes the only `ok` constructor. -/
lemma transcribe_ok_text_ne (pe : PipelineEnv) (st : WorkerState) (fs : FS)
    (p : String) (lang mn : JVal) (text : String) (d : Option String)
    (h : (transcribe_file pe st fs p lang mn).out = Except.ok (text, d)) :
    text ≠ "" := by
  intro hc
  subst hc
  simp only [transcribe_file] at h
  repeat' split at h
  all_goals simp_all

/-- Claim C5: a recognized-segment concatenation that is empty or
whitespace-only always makes the pipeline fail with the empty-result
message (so the loop reports `ok:false`); and conversely every `ok:true`
response emitted by the loop carries a non-empty text. -/
theorem c5_empty_result_rejected :
    (∀ (pe : PipelineEnv) (st : WorkerState) (fs : FS) (p : String) (lang mn : JVal)
        (m : Nat) (serr : String) (segments : List String) (lv : Option String),
      (ensure_model pe.env pe.load st mn).err = none →
      (ensure_model pe.env pe.load st mn).st.model = some m →
      pe.ffmpeg = Except.ok (0, serr) →
      pe.recognize pe.tempPath (normalize_language lang) = Except.ok (segments, lv) →
      (∀ s ∈ segments, pyStrip s = "") →
      (transcribe_file pe st fs p lang mn).out
        = Except.error "faster-whisper returned empty transcription")
    ∧ (∀ (pe : PipelineEnv) (parse : String → Option Payload) (st : WorkerState)
        (fs : FS) (raw rid text : String) (l : Option String),
      Response.resultOk rid text l ∈ (handle_line pe parse st fs raw).responses →
      text ≠ "") := by
  constructor
  · intro pe st fs p lang mn m serr segments lv h1 h2 h3 h4 hseg
    have hnorm : normalize_audio_to_wav fs pe.tempPath pe.ffmpeg
        = (pe.tempPath :: fs, Except.ok pe.tempPath) := by
      rw [h3]
      simp [normalize_audio_to_wav]
    have hz : pyStrip (pyJoin ([] : List String)) = "" := by decide
    simp only [transcribe_file, h1, h2, hnorm, h4, blank_segments_filter segments hseg, hz,
      if_true]
  · intro pe parse st fs raw rid text l hmem
    simp only [handle_line] at hmem
    repeat' split at hmem
    all_goals simp_all
    rename_i heq
    exact transcribe_ok_text_ne _ _ _ _ _ _ _ _ heq

/-- Witness for C5: a run whose only segment is whitespace fails with the
empty-result message, and a concrete successful response has non-empty
text. -/
theorem c5_empty_result_rejected_witness :
    (transcribe_file ⟨[], fun _ => Except.ok 1, "t.wav", Except.ok (0, ""),
        fun _ _ => Except.ok (["  "], none)⟩
      ⟨none, none⟩ [] "a.wav" JVal.jnull JVal.jnull).out
      = Except.error "faster-whisper returned empty transcription"
    ∧ ("Hello" : String) ≠ "" :=
  ⟨c5_empty_result_rejected.1
    ⟨[], fun _ => Except.ok 1, "t.wav", Except.ok (0, ""), fun _ _ => Except.ok (["  "], none)⟩
    ⟨none, none⟩ [] "a.wav" JVal.jnull JVal.jnull 1 "" ["  "] none
    (by decide) (by decide) rfl rfl (by decide),
   c5_empty_result_rejected.2
    ⟨[], fun _ => Except.ok 1, "t.wav", Except.ok (0, ""),
      fun _ _ => Except.ok (["Hello"], none)⟩
    (fun l => if l = "req" then some [("event", JVal.jstr "transcribe"),
      ("id", JVal.jstr "r1"), ("audioFilePath", JVal.jstr "a.wav")] else none)
    ⟨none, none⟩ ["a.wav"] "req" "r1" "Hello" none (by decide)⟩

end Otto
